import Mathlib

/-
Verification of the career-coach backend (src/server.py): shallow embedding
of the CSRF guard, the model-backed endpoint handlers, the JSON response
extractor, and the cookie-issuing helper, with theorems settling the
specification claims.
-/

/-- JSON values as produced by Python json.loads: numbers are modelled as
rationals (covering both int and float literals of the source). -/
inductive Json where
  | null : Json
  | bool (b : Bool) : Json
  | num (q : Rat) : Json
  | str (s : String) : Json
  | arr (elems : List Json) : Json
  | obj (fields : List (String × Json)) : Json

/-- Python truthiness of an optional string: None and the empty string are
falsy (mirrors `if not cookie_token` on `request.cookies.get(...)`). -/
def pyTruthy : Option String → Bool
  | none => false
  | some s => s ≠ ""

/-- All characters of a string are ASCII. -/
def asciiOnly (s : String) : Bool :=
  s.toList.all (fun c => c.toNat < 128)

/-- Model of secrets.compare_digest on two Python str values: the CPython
implementation requires both arguments to be ASCII-only and raises TypeError
otherwise; on ASCII strings it is constant-time byte equality. The error case
models the raised exception. -/
def compare_digest (a b : String) : Except Unit Bool :=
  if asciiOnly a ∧ asciiOnly b then Except.ok (a = b) else Except.error ()

/-- Model of verify_csrf (src/server.py lines 44-52): reads the cookie token
and the X-CSRF-Token header, fails when either is absent or empty, otherwise
returns the constant-time comparison, with any exception mapped to false. -/
def verify_csrf (cookieToken headerToken : Option String) : Bool :=
  if ¬ pyTruthy cookieToken ∨ ¬ pyTruthy headerToken then false
  else
    match compare_digest (cookieToken.getD "") (headerToken.getD "") with
    | Except.ok b => b
    | Except.error _ => false

/-- A Set-Cookie record with the attributes the source sets. -/
structure SetCookie where
  name : String
  value : String
  maxAge : Nat
  sameSite : String
  secure : Bool
  httpOnly : Bool
deriving DecidableEq

/-- An outgoing HTTP response: body, status and accumulated Set-Cookie
headers. -/
structure HttpResp where
  status : Nat
  body : Json
  cookies : List SetCookie

def CSRF_COOKIE_NAME : String := "csrf-token"

/-- Model of ensure_csrf_cookie (src/server.py lines 30-42). The fresh token
that _new_csrf_token would mint is passed explicitly (it is a pure function of
system randomness); tokenArg models the optional token parameter and
requestCookie the inbound request cookie. Python truthiness governs both the
`token or request.cookies.get(...)` expression and the `if not token` check. -/
def ensure_csrf_cookie (secureCfg : Bool) (freshToken : String)
    (requestCookie : Option String) (tokenArg : Option String)
    (resp : HttpResp) : HttpResp :=
  let t0 : Option String := if pyTruthy tokenArg then tokenArg else requestCookie
  let token : String := if pyTruthy t0 then t0.getD "" else freshToken
  { resp with cookies := resp.cookies ++
      [{ name := CSRF_COOKIE_NAME, value := token, maxAge := 7 * 24 * 60 * 60,
         sameSite := "Lax", secure := secureCfg, httpOnly := false }] }

/-- JSON whitespace skipping, as in Python json.loads: space, tab, newline,
carriage return. -/
def skipWs : List Char → List Char
  | c :: rest =>
      if c = ' ' ∨ c = '\t' ∨ c = '\n' ∨ c = '\r' then skipWs rest else c :: rest
  | [] => []

/-- Position-preserving dictionary update, as Python dict assignment behaves
for duplicate keys while decoding an object: an existing key keeps its place
and gets the new value, a new key is appended. -/
def pyUpdate (fields : List (String × Json)) (k : String) (v : Json) :
    List (String × Json) :=
  if fields.any (fun p => p.1 = k) then
    fields.map (fun p => if p.1 = k then (k, v) else p)
  else fields ++ [(k, v)]

/-- Consume a run of decimal digits, returning the accumulated value, the
number of digits consumed, and the rest of the input. -/
def grabDigits : List Char → Nat → Nat → Nat × Nat × List Char
  | c :: rest, acc, n =>
      if c.isDigit then grabDigits rest (acc * 10 + (c.toNat - 48)) (n + 1)
      else (acc, n, c :: rest)
  | [], acc, n => (acc, n, [])

/-- Value of a hexadecimal digit, if any. -/
def hexVal (c : Char) : Option Nat :=
  if c.isDigit then some (c.toNat - 48)
  else if 'a' ≤ c ∧ c ≤ 'f' then some (c.toNat - 87)
  else if 'A' ≤ c ∧ c ≤ 'F' then some (c.toNat - 55)
  else none

/-- Body of a JSON string literal after the opening quote: handles the JSON
escapes, rejects unescaped control characters (json.loads is strict), and
combines UTF-16 surrogate-pair escapes into one character. -/
def parseStrBody : Nat → List Char → List Char → Except String (String × List Char)
  | 0, _, _ => Except.error "depth"
  | Nat.succ fuel, acc, s =>
    match s with
    | [] => Except.error "Unterminated string"
    | '"' :: rest => Except.ok (String.mk acc.reverse, rest)
    | '\\' :: esc =>
      match esc with
      | 'u' :: h1 :: h2 :: h3 :: h4 :: rest =>
        match hexVal h1, hexVal h2, hexVal h3, hexVal h4 with
        | some a, some b, some c, some d =>
          let n := ((a * 16 + b) * 16 + c) * 16 + d
          match rest with
          | '\\' :: 'u' :: g1 :: g2 :: g3 :: g4 :: rest2 =>
            match hexVal g1, hexVal g2, hexVal g3, hexVal g4 with
            | some a2, some b2, some c2, some d2 =>
              let m := ((a2 * 16 + b2) * 16 + c2) * 16 + d2
              if 0xD800 ≤ n ∧ n < 0xDC00 ∧ 0xDC00 ≤ m ∧ m < 0xE000 then
                let cp := 0x10000 + (n - 0xD800) * 0x400 + (m - 0xDC00)
                parseStrBody fuel (Char.ofNat cp :: acc) rest2
              else parseStrBody fuel (Char.ofNat n :: acc) rest
            | _, _, _, _ => parseStrBody fuel (Char.ofNat n :: acc) rest
          | _ => parseStrBody fuel (Char.ofNat n :: acc) rest
        | _, _, _, _ => Except.error "Invalid unicode escape"
      | 'u' :: _ => Except.error "Invalid unicode escape"
      | c :: rest =>
        if c = '"' then parseStrBody fuel ('"' :: acc) rest
        else if c = '\\' then parseStrBody fuel ('\\' :: acc) rest
        else if c = '/' then parseStrBody fuel ('/' :: acc) rest
        else if c = 'b' then parseStrBody fuel ('\x08' :: acc) rest
        else if c = 'f' then parseStrBody fuel ('\x0C' :: acc) rest
        else if c = 'n' then parseStrBody fuel ('\n' :: acc) rest
        else if c = 'r' then parseStrBody fuel ('\r' :: acc) rest
        else if c = 't' then parseStrBody fuel ('\t' :: acc) rest
        else Except.error "Invalid escape"
      | [] => Except.error "Unterminated string"
    | c :: rest =>
      if c.toNat < 32 then Except.error "Invalid control character"
      else parseStrBody fuel (c :: acc) rest

/-- Parse a JSON number literal (sign, integer part, optional fraction,
optional exponent), yielding a rational value. -/
def parseNum (s : List Char) : Except String (Json × List Char) :=
  let (neg, s1) :=
    match s with
    | '-' :: r => (true, r)
    | _ => (false, s)
  match s1 with
  | c :: _ =>
    if ¬ c.isDigit then Except.error "Expecting value"
    else
      let (ipart, s2) :=
        match s1 with
        | '0' :: r => ((0 : Nat), r)
        | _ =>
          let (v, _, r) := grabDigits s1 0 0
          (v, r)
      let (fnum, fden, s3) :=
        match s2 with
        | '.' :: r =>
          let (fv, fn, r2) := grabDigits r 0 0
          ((fv : Nat), (fn : Nat), if fn = 0 then [] else r2)
        | _ => (0, 0, s2)
      match s2 with
      | '.' :: r =>
        match grabDigits r 0 0 with
        | (_, 0, _) => Except.error "Expecting digits after decimal point"
        | _ =>
          finishNum neg ipart fnum fden s3
      | _ => finishNum neg ipart fnum fden s3
  | [] => Except.error "Expecting value"
where
  /-- Handle the optional exponent and assemble the rational value. -/
  finishNum (neg : Bool) (ipart fnum fden : Nat) (s3 : List Char) :
      Except String (Json × List Char) :=
    let base : Rat := (ipart : Rat) + (fnum : Rat) / ((10 : Rat) ^ fden)
    match s3 with
    | e :: r =>
      if e = 'e' ∨ e = 'E' then
        let (eneg, r2) :=
          match r with
          | '+' :: r3 => (false, r3)
          | '-' :: r3 => (true, r3)
          | _ => (false, r)
        match grabDigits r2 0 0 with
        | (_, 0, _) => Except.error "Expecting digits in exponent"
        | (ev, _, r4) =>
          let scaled : Rat :=
            if eneg then base / ((10 : Rat) ^ ev) else base * ((10 : Rat) ^ ev)
          Except.ok (Json.num (if neg then -scaled else scaled), r4)
      else Except.ok (Json.num (if neg then -base else base), s3)
    | [] => Except.ok (Json.num (if neg then -base else base), [])

/-- Parsing mode: a single value, the tail of an array after at least one
element is expected, or the tail of an object. -/
inductive PMode where
  | val : PMode
  | arrTail (acc : List Json) : PMode
  | objTail (acc : List (String × Json)) : PMode

/-- Recursive descent JSON parser on explicit fuel, mirroring the grammar
json.loads accepts (strict mode; the NaN and Infinity extensions are not
modelled, no claim depends on them). Returns the value and remaining input. -/
def parseF : Nat → PMode → List Char → Except String (Json × List Char)
  | 0, _, _ => Except.error "depth"
  | Nat.succ fuel, PMode.val, s =>
    match skipWs s with
    | [] => Except.error "Expecting value"
    | 'n' :: 'u' :: 'l' :: 'l' :: rest => Except.ok (Json.null, rest)
    | 't' :: 'r' :: 'u' :: 'e' :: rest => Except.ok (Json.bool true, rest)
    | 'f' :: 'a' :: 'l' :: 's' :: 'e' :: rest => Except.ok (Json.bool false, rest)
    | '"' :: rest =>
      match parseStrBody fuel [] rest with
      | Except.error e => Except.error e
      | Except.ok (str, rest2) => Except.ok (Json.str str, rest2)
    | '[' :: rest =>
      match skipWs rest with
      | ']' :: rest2 => Except.ok (Json.arr [], rest2)
      | r => parseF fuel (PMode.arrTail []) r
    | '{' :: rest =>
      match skipWs rest with
      | '}' :: rest2 => Except.ok (Json.obj [], rest2)
      | r => parseF fuel (PMode.objTail []) r
    | s2 => parseNum s2
  | Nat.succ fuel, PMode.arrTail acc, s =>
    match parseF fuel PMode.val s with
    | Except.error e => Except.error e
    | Except.ok (v, rest) =>
      match skipWs rest with
      | ',' :: rest2 => parseF fuel (PMode.arrTail (acc ++ [v])) rest2
      | ']' :: rest2 => Except.ok (Json.arr (acc ++ [v]), rest2)
      | _ => Except.error "Expecting comma or bracket"
  | Nat.succ fuel, PMode.objTail acc, s =>
    match skipWs s with
    | '"' :: rest =>
      match parseStrBody fuel [] rest with
      | Except.error e => Except.error e
      | Except.ok (key, rest2) =>
        match skipWs rest2 with
        | ':' :: rest3 =>
          match parseF fuel PMode.val rest3 with
          | Except.error e => Except.error e
          | Except.ok (v, rest4) =>
            match skipWs rest4 with
            | ',' :: rest5 => parseF fuel (PMode.objTail (pyUpdate acc key v)) rest5
            | '}' :: rest5 => Except.ok (Json.obj (pyUpdate acc key v), rest5)
            | _ => Except.error "Expecting comma or brace"
        | _ => Except.error "Expecting colon"
    | _ => Except.error "Expecting property name"

/-- Model of Python json.loads on a string: parse one value and require only
whitespace to remain (the Extra data error otherwise). -/
def jsonParse (s : String) : Except String Json :=
  match parseF (2 * s.toList.length + 4) PMode.val s.toList with
  | Except.error e => Except.error e
  | Except.ok (v, rest) =>
    if skipWs rest = [] then Except.ok v else Except.error "Extra data"

/-- Index of the first occurrence of a character, or none: Python str.find
with -1 mapped to none. -/
def pyFind (cs : List Char) (c : Char) : Option Nat :=
  match cs with
  | [] => none
  | x :: rest => if x = c then some 0 else (pyFind rest c).map (· + 1)

/-- Python str.find(c, start): first occurrence at or after index start,
reported as an index into the whole string. -/
def pyFindFrom (cs : List Char) (c : Char) (start : Nat) : Option Nat :=
  (pyFind (cs.drop start) c).map (· + start)

/-- Whitespace characters stripped by Python str.strip (the ASCII ones; the
tokens of this service are ASCII). -/
def isPyWs (c : Char) : Bool :=
  c = ' ' ∨ c = '\t' ∨ c = '\n' ∨ c = '\r' ∨ c = '\x0b' ∨ c = '\x0c'

/-- Model of Python str.strip(): remove leading and trailing whitespace. -/
def pyStrip (s : String) : String :=
  String.mk (((s.toList.dropWhile isPyWs).reverse.dropWhile isPyWs).reverse)

/-- Areas extraction from upstream content (src/server.py lines 119-137):
strict parse accepted when it is a list; on a parse exception, slice from the
first opening bracket to the first closing bracket at or after it and parse
that, accepted when a list; in every other case produce the empty list. -/
def extractAreas (content : String) : List Json :=
  match jsonParse content with
  | Except.ok (Json.arr xs) => xs
  | Except.ok _ => []
  | Except.error _ =>
    let cs := content.toList
    match pyFind cs '[' with
    | none => []
    | some start =>
      match pyFindFrom cs ']' start with
      | none => []
      | some e =>
        if e > start then
          match jsonParse (String.mk ((cs.drop start).take (e + 1 - start))) with
          | Except.ok (Json.arr xs) => xs
          | _ => []
        else []

/-- Does a JSON value carry a given object key (Python: isinstance(r, dict)
and key in r)? -/
def isDictWithKey (j : Json) (key : String) : Bool :=
  match j with
  | Json.obj fields => fields.any (fun p => p.1 = key)
  | _ => false

/-- Negative default of the safety classifier. -/
def safetyDefault : Json :=
  Json.obj [("safe", Json.bool false),
            ("reason", Json.str ("Could not verify area safety"))]

/-- Safety extraction from upstream content (src/server.py lines 204-210):
the parsed value is returned verbatim when it is a dict containing the key
safe; any parse failure or other shape yields the negative default. -/
def extractSafety (content : String) : Json :=
  match jsonParse content with
  | Except.ok r => if isDictWithKey r ("safe") then r else safetyDefault
  | Except.error _ => safetyDefault

/-- Outcome of running a handler: a normal response with status and JSON
body, or an exception escaping the handler uncaught. -/
inductive HResp where
  | ok (status : Nat) (body : Json) : HResp
  | exc (name : String) : HResp

/-- Observable result of one handler run: the response, whether the external
completion endpoint was called, and the payload sent to it if so. -/
structure HandlerOut where
  resp : HResp
  called : Bool
  sent : Option Json

/-- An inbound request to a model-backed endpoint: CSRF cookie token, CSRF
header token, and the JSON request body. -/
structure Request where
  cookieToken : Option String
  headerToken : Option String
  body : Json

/-- Response body of a CSRF failure. -/
def csrfErrorBody : Json := Json.obj [("error", Json.str ("CSRF token missing or invalid"))]

/-- Response body of a missing API key. -/
def apiKeyErrorBody : Json := Json.obj [("error", Json.str ("API key missing"))]

/-- Python data.get(key, default) where data must be a dict: on a non-dict
body the attribute lookup raises (AttributeError), which the handlers do not
catch at that point. -/
def pyGetD (data : Json) (key : String) (default : Json) : Except String Json :=
  match data with
  | Json.obj fields =>
    match fields.find? (fun p => p.1 = key) with
    | some p => Except.ok p.2
    | none => Except.ok default
  | _ => Except.error "AttributeError"

/-- Python value.strip() where value must be a str: on any other value the
attribute lookup raises (AttributeError). -/
def pyStripAttr (v : Json) : Except String String :=
  match v with
  | Json.str s => Except.ok (pyStrip s)
  | _ => Except.error "AttributeError"

/-- Read choices[0].message.content from the upstream completion JSON as a
string; any failure stands for the exception the source's outer try catches. -/
def contentOf (j : Json) : Except String String :=
  match j with
  | Json.obj fields =>
    match fields.find? (fun p => p.1 = "choices") with
    | some (_, Json.arr (first :: _)) =>
      match first with
      | Json.obj mfields =>
        match mfields.find? (fun p => p.1 = "message") with
        | some (_, Json.obj cfields) =>
          match cfields.find? (fun p => p.1 = "content") with
          | some (_, Json.str s) => Except.ok s
          | _ => Except.error "content missing or not a string"
        | _ => Except.error "KeyError"
      | _ => Except.error "KeyError"
    | _ => Except.error "KeyError"
  | _ => Except.error "KeyError"

/-- Prompt of the areas endpoint (src/server.py lines 93-104), with the coach
string interpolated. -/
def areasPrompt (coach : String) : Json :=
  Json.arr [
    Json.obj [("role", Json.str ("system")),
      ("content", Json.str ("You are an expert career coach. List ONLY the main interview/practice areas for the career: \x27" ++ coach ++ "\x27. Return a valid JSON array with 10 to 30 distinct strings covering the breadth of the role. No commentary, no explanation, no markdown, no keys, no extra text."))],
    Json.obj [("role", Json.str ("user")),
      ("content", Json.str ("Provide 10-30 core interview/practice areas for a \x27" ++ coach ++ "\x27 candidate. Output ONLY a JSON array of strings."))]]

/-- Payload the areas endpoint sends upstream (src/server.py lines 109-114). -/
def areasPayload (model coach : String) : Json :=
  Json.obj [("model", Json.str model), ("messages", areasPrompt coach),
            ("max_tokens", Json.num 300), ("temperature", Json.num 0)]

/-- Prompt of the safety endpoint (src/server.py lines 180-189), with the
area string interpolated. -/
def safetyPrompt (area : String) : Json :=
  Json.arr [
    Json.obj [("role", Json.str ("system")),
      ("content", Json.str ("You are a strict career safety classifier. Only allow mainstream, legal, and ethical career areas suitable for professional coaching. If the area is unsafe, illegal, unethical, or inappropriate (e.g., suicide, sex work, criminal activity), respond ONLY with JSON: \x7b\"safe\": false, \"reason\": \"<short reason>\"\x7d. If the area is safe and appropriate for coaching, respond ONLY with JSON: \x7b\"safe\": true\x7d. No commentary, no extra text, no markdown."))],
    Json.obj [("role", Json.str ("user")),
      ("content", Json.str ("Is the area \x27" ++ area ++ "\x27 safe and appropriate for career coaching?"))]]

/-- Payload the safety endpoint sends upstream (src/server.py lines 194-199). -/
def safetyPayload (model area : String) : Json :=
  Json.obj [("model", Json.str model), ("messages", safetyPrompt area),
            ("max_tokens", Json.num 60), ("temperature", Json.num 0)]

/-- Model of the get_areas handler (src/server.py lines 82-140). apiKey is
the OPENAI_API_KEY configuration, model the OPENAI_MODEL name, upstream the
result of the external completion call (error standing for any exception the
outer try catches, including transport failure and malformed body). -/
def get_areas (apiKey : Option String) (model : String) (req : Request)
    (upstream : Except String Json) : HandlerOut :=
  if ¬ verify_csrf req.cookieToken req.headerToken then
    { resp := HResp.ok 403 csrfErrorBody, called := false, sent := none }
  else if ¬ pyTruthy apiKey then
    { resp := HResp.ok 500 apiKeyErrorBody, called := false, sent := none }
  else
    match pyGetD req.body ("coach") (Json.str ("")) with
    | Except.error e => { resp := HResp.exc e, called := false, sent := none }
    | Except.ok v =>
      match pyStripAttr v with
      | Except.error e => { resp := HResp.exc e, called := false, sent := none }
      | Except.ok coach =>
        if coach = "" then
          { resp := HResp.ok 200 (Json.obj [("areas", Json.arr [])]),
            called := false, sent := none }
        else
          let payload := areasPayload model coach
          match upstream with
          | Except.error e =>
            { resp := HResp.ok 500 (Json.obj [("error", Json.str e)]),
              called := true, sent := some payload }
          | Except.ok j =>
            match contentOf j with
            | Except.error e =>
              { resp := HResp.ok 500 (Json.obj [("error", Json.str e)]),
                called := true, sent := some payload }
            | Except.ok content =>
              { resp := HResp.ok 200 (Json.obj [("areas", Json.arr (extractAreas content))]),
                called := true, sent := some payload }

/-- Model of the chat handler (src/server.py lines 142-167): relays the
caller-supplied messages with defaults for max_tokens and temperature, and
returns the upstream completion JSON unchanged. -/
def chat (apiKey : Option String) (model : String) (req : Request)
    (upstream : Except String Json) : HandlerOut :=
  if ¬ verify_csrf req.cookieToken req.headerToken then
    { resp := HResp.ok 403 csrfErrorBody, called := false, sent := none }
  else if ¬ pyTruthy apiKey then
    { resp := HResp.ok 500 apiKeyErrorBody, called := false, sent := none }
  else
    match pyGetD req.body ("messages") Json.null with
    | Except.error e => { resp := HResp.exc e, called := false, sent := none }
    | Except.ok msgs =>
      match pyGetD req.body ("max_tokens") (Json.num 800) with
      | Except.error e => { resp := HResp.exc e, called := false, sent := none }
      | Except.ok maxTok =>
        match pyGetD req.body ("temperature") (Json.num (0.2 : Rat)) with
        | Except.error e => { resp := HResp.exc e, called := false, sent := none }
        | Except.ok temp =>
          let payload := Json.obj [("model", Json.str model), ("messages", msgs),
                                   ("max_tokens", maxTok), ("temperature", temp)]
          match upstream with
          | Except.error e =>
            { resp := HResp.ok 500 (Json.obj [("error", Json.str e)]),
              called := true, sent := some payload }
          | Except.ok j =>
            { resp := HResp.ok 200 j, called := true, sent := some payload }

/-- Model of the check_area handler (src/server.py lines 169-213). -/
def check_area (apiKey : Option String) (model : String) (req : Request)
    (upstream : Except String Json) : HandlerOut :=
  if ¬ verify_csrf req.cookieToken req.headerToken then
    { resp := HResp.ok 403 csrfErrorBody, called := false, sent := none }
  else if ¬ pyTruthy apiKey then
    { resp := HResp.ok 500 apiKeyErrorBody, called := false, sent := none }
  else
    match pyGetD req.body ("area") (Json.str ("")) with
    | Except.error e => { resp := HResp.exc e, called := false, sent := none }
    | Except.ok v =>
      match pyStripAttr v with
      | Except.error e => { resp := HResp.exc e, called := false, sent := none }
      | Except.ok area =>
        if area = "" then
          { resp := HResp.ok 200 (Json.obj [("safe", Json.bool false),
              ("reason", Json.str ("No area provided"))]),
            called := false, sent := none }
        else
          let payload := safetyPayload model area
          match upstream with
          | Except.error e =>
            { resp := HResp.ok 500 (Json.obj [("error", Json.str e)]),
              called := true, sent := some payload }
          | Except.ok j =>
            match contentOf j with
            | Except.error e =>
              { resp := HResp.ok 500 (Json.obj [("error", Json.str e)]),
                called := true, sent := some payload }
            | Except.ok content =>
              { resp := HResp.ok 200 (extractSafety content),
                called := true, sent := some payload }

/-- Is a JSON value an array (Python isinstance(x, list))? -/
def jsonIsArr : Json → Bool
  | Json.arr _ => true
  | _ => false

/-- Pure lookup of a key in an object's field list. -/
def jLookup (fields : List (String × Json)) (key : String) : Option Json :=
  (fields.find? (fun p => p.1 = key)).map (fun p => p.2)

/-
Helper lemmas.
-/

/-- pyGetD on an object body is the pure lookup with default. -/
theorem pyGetD_obj (fields : List (String × Json)) (key : String) (d : Json) :
    pyGetD (Json.obj fields) key d = Except.ok ((jLookup fields key).getD d) := by
  simp only [pyGetD, jLookup]
  cases fields.find? (fun p => p.1 = key) <;> simp

/-- Characterization of verify_csrf on two present tokens. -/
theorem verify_csrf_some_some (c h : String) :
    verify_csrf (some c) (some h) =
      if c ≠ "" ∧ h ≠ "" ∧ asciiOnly c ∧ asciiOnly h then decide (c = h)
      else false := by
  simp only [verify_csrf, pyTruthy, compare_digest, Option.getD_some]
  by_cases hc : c = "" <;> by_cases hh : h = "" <;>
    by_cases ha : asciiOnly c = true <;> by_cases hb : asciiOnly h = true <;>
    simp [hc, hh, ha, hb]

/-- Verification fails when the cookie token is missing or empty. -/
theorem verify_csrf_no_cookie (header : Option String) :
    verify_csrf none header = false ∧ verify_csrf (some "") header = false := by
  constructor <;> simp [verify_csrf, pyTruthy]

/-- Verification fails when the header token is missing or empty. -/
theorem verify_csrf_no_header (cookie : Option String) :
    verify_csrf cookie none = false ∧ verify_csrf cookie (some "") = false := by
  constructor <;> simp [verify_csrf, pyTruthy]

/-
Claim theorems.
-/

/-- C1: CSRF verification returns false when either the cookie token or the
X-CSRF-Token header token is absent or empty; it returns true exactly when
both are present, nonempty, and the constant-time comparison succeeds with a
byte-for-byte match; an exception raised during the comparison (compare_digest
on non-ASCII input) yields false rather than propagating; and on ASCII tokens
success is exactly equality of the two strings. -/
theorem C1_verify_csrf_spec (cookie header : Option String) :
    ((cookie = none ∨ cookie = some "" ∨ header = none ∨ header = some "") →
      verify_csrf cookie header = false) ∧
    (verify_csrf cookie header = true ↔
      ∃ c h, cookie = some c ∧ header = some h ∧ c ≠ "" ∧ h ≠ "" ∧
        compare_digest c h = Except.ok true) ∧
    (∀ c h, cookie = some c → header = some h →
      compare_digest c h = Except.error () → verify_csrf cookie header = false) ∧
    (∀ c h, cookie = some c → header = some h → c ≠ "" → h ≠ "" →
      asciiOnly c = true → asciiOnly h = true →
      (verify_csrf cookie header = true ↔ c = h)) := by
  refine ⟨?_, ?_, ?_, ?_⟩
  · rintro (rfl | rfl | rfl | rfl)
    · exact (verify_csrf_no_cookie header).1
    · exact (verify_csrf_no_cookie header).2
    · exact (verify_csrf_no_header cookie).1
    · exact (verify_csrf_no_header cookie).2
  · cases cookie with
    | none => simp [(verify_csrf_no_cookie header).1]
    | some c =>
      cases header with
      | none => simp [(verify_csrf_no_header (some c)).1]
      | some h =>
        rw [verify_csrf_some_some]
        by_cases hc : c = "" <;> by_cases hh : h = "" <;>
          by_cases ha : asciiOnly c = true <;> by_cases hb : asciiOnly h = true <;>
          simp [hc, hh, ha, hb, compare_digest]
  · rintro c h rfl rfl hex
    rw [verify_csrf_some_some]
    simp only [compare_digest] at hex
    by_cases ha : asciiOnly c = true <;> by_cases hb : asciiOnly h = true <;>
      simp [ha, hb] at hex ⊢
  · rintro c h rfl rfl hc hh ha hb
    rw [verify_csrf_some_some]
    simp [hc, hh, ha, hb]

/-- C1 witness: matching nonempty tokens verify; a missing cookie fails. -/
theorem C1_witness :
    verify_csrf (some ("tok")) (some ("tok")) = true ∧
    verify_csrf none (some ("tok")) = false := by
  constructor
  · exact ((C1_verify_csrf_spec (some "tok") (some "tok")).2.2.2 "tok" "tok"
      rfl rfl (by decide) (by decide) (by decide) (by decide)).mpr rfl
  · exact (C1_verify_csrf_spec none (some "tok")).1 (Or.inl rfl)

/-- C2: on every POST to a model-backed endpoint whose CSRF verification
fails, the handler answers 403 with the fixed error body and the external
completion call is not executed; conversely no handler reaches the upstream
call unless verification succeeded. -/
theorem C2_csrf_gates_upstream (apiKey : Option String) (model : String)
    (req : Request) (upstream : Except String Json) :
    (verify_csrf req.cookieToken req.headerToken = false →
      get_areas apiKey model req upstream =
        { resp := HResp.ok 403 csrfErrorBody, called := false, sent := none } ∧
      chat apiKey model req upstream =
        { resp := HResp.ok 403 csrfErrorBody, called := false, sent := none } ∧
      check_area apiKey model req upstream =
        { resp := HResp.ok 403 csrfErrorBody, called := false, sent := none }) ∧
    ((get_areas apiKey model req upstream).called = true →
      verify_csrf req.cookieToken req.headerToken = true) ∧
    ((chat apiKey model req upstream).called = true →
      verify_csrf req.cookieToken req.headerToken = true) ∧
    ((check_area apiKey model req upstream).called = true →
      verify_csrf req.cookieToken req.headerToken = true) := by
  refine ⟨fun hv => ⟨?_, ?_, ?_⟩, ?_, ?_, ?_⟩
  · simp [get_areas, hv]
  · simp [chat, hv]
  · simp [check_area, hv]
  all_goals
    cases hb : verify_csrf req.cookieToken req.headerToken with
    | false => intro hcalled; simp [get_areas, chat, check_area, hb] at hcalled
    | true => intro _; rfl

/-- C2 witness: a token-less request to the areas endpoint is answered 403
and does not call upstream. -/
theorem C2_witness :
    get_areas (some ("k")) ("m") (Request.mk none none Json.null)
      (Except.ok Json.null) =
      { resp := HResp.ok 403 csrfErrorBody, called := false, sent := none } ∧
    verify_csrf none none = false := by
  have h := C2_csrf_gates_upstream (some "k") "m" (Request.mk none none Json.null)
    (Except.ok Json.null)
  exact ⟨(h.1 rfl).1, rfl⟩

/-- C3: when the API key configuration is missing (falsy), every model-backed
endpoint that passed the CSRF gate answers 500 with the fixed error body, for
any request body and before any body handling, and upstream is not called. -/
theorem C3_api_key_missing (apiKey : Option String) (model : String)
    (req : Request) (upstream : Except String Json)
    (hv : verify_csrf req.cookieToken req.headerToken = true)
    (hk : pyTruthy apiKey = false) :
    get_areas apiKey model req upstream =
      { resp := HResp.ok 500 apiKeyErrorBody, called := false, sent := none } ∧
    chat apiKey model req upstream =
      { resp := HResp.ok 500 apiKeyErrorBody, called := false, sent := none } ∧
    check_area apiKey model req upstream =
      { resp := HResp.ok 500 apiKeyErrorBody, called := false, sent := none } := by
  refine ⟨?_, ?_, ?_⟩ <;> simp [get_areas, chat, check_area, hv, hk]

/-- C3 witness: with no API key configured and valid CSRF tokens, the areas
endpoint answers 500 with the API-key error body. -/
theorem C3_witness :
    get_areas none ("m") (Request.mk (some ("t")) (some ("t")) Json.null)
      (Except.ok Json.null) =
      { resp := HResp.ok 500 apiKeyErrorBody, called := false, sent := none } :=
  (C3_api_key_missing none "m" (Request.mk (some "t") (some "t") Json.null)
    (Except.ok Json.null) rfl rfl).1

/-- Stripping an all-whitespace string yields the empty string. -/
theorem pyStrip_eq_empty_of_all_ws (s : String) (h : s.toList.all isPyWs = true) :
    pyStrip s = "" := by
  unfold pyStrip
  have h1 : List.dropWhile isPyWs s.data = [] := by
    rw [List.dropWhile_eq_nil_iff]
    exact fun x hx => List.all_eq_true.mp h x hx
  simp only [String.toList, h1, List.reverse_nil, List.dropWhile_nil]

/-- C4: a POST to the areas endpoint that passes the CSRF and API-key gates
and whose coach field is an empty or all-whitespace string is answered with
exactly the empty areas object, and the upstream completion call is not
made. -/
theorem C4_empty_coach (apiKey : Option String) (model : String) (req : Request)
    (upstream : Except String Json) (s : String)
    (hv : verify_csrf req.cookieToken req.headerToken = true)
    (hk : pyTruthy apiKey = true)
    (hc : pyGetD req.body ("coach") (Json.str ("")) = Except.ok (Json.str s))
    (hw : s.toList.all isPyWs = true) :
    get_areas apiKey model req upstream =
      { resp := HResp.ok 200 (Json.obj [("areas", Json.arr [])]),
        called := false, sent := none } := by
  simp [get_areas, hv, hk, hc, pyStripAttr, pyStrip_eq_empty_of_all_ws s hw]

/-- C4 witness: a whitespace-only coach field yields the empty areas
response without an upstream call. -/
theorem C4_witness :
    get_areas (some ("k")) ("m")
      (Request.mk (some ("t")) (some ("t")) (Json.obj [("coach", Json.str (" \t "))]))
      (Except.ok Json.null) =
      { resp := HResp.ok 200 (Json.obj [("areas", Json.arr [])]),
        called := false, sent := none } :=
  C4_empty_coach (some "k") "m"
    (Request.mk (some "t") (some "t") (Json.obj [("coach", Json.str " \t ")]))
    (Except.ok Json.null) (" \t ") rfl rfl rfl (by decide)

/-- C7: a POST to the safety endpoint that passes the CSRF and API-key gates
and whose area field strips to the empty string is answered with exactly the
fixed negative body and no upstream call is made. -/
theorem C7_empty_area (apiKey : Option String) (model : String) (req : Request)
    (upstream : Except String Json) (s : String)
    (hv : verify_csrf req.cookieToken req.headerToken = true)
    (hk : pyTruthy apiKey = true)
    (hc : pyGetD req.body ("area") (Json.str ("")) = Except.ok (Json.str s))
    (hw : s.toList.all isPyWs = true) :
    check_area apiKey model req upstream =
      { resp := HResp.ok 200 (Json.obj [("safe", Json.bool false),
          ("reason", Json.str ("No area provided"))]),
        called := false, sent := none } := by
  simp [check_area, hv, hk, hc, pyStripAttr, pyStrip_eq_empty_of_all_ws s hw]

/-- C7 witness: an empty area field yields the fixed negative response
without an upstream call. -/
theorem C7_witness :
    check_area (some ("k")) ("m")
      (Request.mk (some ("t")) (some ("t")) (Json.obj [("area", Json.str (""))]))
      (Except.ok Json.null) =
      { resp := HResp.ok 200 (Json.obj [("safe", Json.bool false),
          ("reason", Json.str ("No area provided"))]),
        called := false, sent := none } :=
  C7_empty_area (some "k") "m"
    (Request.mk (some "t") (some "t") (Json.obj [("area", Json.str "")]))
    (Except.ok Json.null) ("") rfl rfl rfl (by decide)

/-- pyFind locates the first occurrence of a character: when the character
does not occur in a prefix, the occurrence right after that prefix is found
at the prefix's length. -/
theorem pyFind_append_first (pre rest : List Char) (c : Char) (hpre : c ∉ pre) :
    pyFind (pre ++ c :: rest) c = some pre.length := by
  induction pre with
  | nil => simp [pyFind]
  | cons x xs ih =>
    simp only [List.cons_append, pyFind, List.append_eq]
    have hx : ¬ x = c := fun h => hpre (h ▸ List.mem_cons_self x xs)
    rw [if_neg hx, ih (fun h => hpre (List.mem_cons_of_mem x h))]
    simp

/-- Taking a prefix's length plus n characters of an appended list keeps the
prefix and takes n from the suffix. -/
theorem take_length_add (l r : List Char) (n : Nat) :
    (l ++ r).take (l.length + n) = l ++ r.take n := by
  induction l with
  | nil => simp
  | cons x xs ih => simp [List.take, Nat.succ_add, ih]

/-- C5 counterexample: the whole text fails strict parsing, the substring
from the first opening bracket to its matching closing bracket is a
well-formed nested JSON array, yet extraction yields the empty list — the
source slices only up to the first closing bracket, not the matching one, so
the claim's matching-bracket extraction (in particular its success on arrays
containing nested arrays) does not hold of the code. -/
theorem C5_counterexample :
    jsonParse ("x [[\"a\"], \"b\"]") = Except.error ("Expecting value") ∧
    jsonParse ("[[\"a\"], \"b\"]") =
      Except.ok (Json.arr [Json.arr [Json.str ("a")], Json.str ("b")]) ∧
    extractAreas ("x [[\"a\"], \"b\"]") = [] :=
  ⟨rfl, rfl, rfl⟩

/-- C5 amended: the areas extractor returns xs whenever the whole content
strictly parses to the JSON array xs, and the empty list when it parses to a
non-array; when strict parsing raises, the substring from the first opening
bracket to the FIRST closing bracket at or after it is parsed, accepted if
an array, so extraction succeeds for every content whose embedded array
contains no closing bracket before its end; with no opening bracket the
result is empty; and the spec's example content yields the two strings while
unparsable prose yields the empty list. -/
theorem C5_extractor_amended :
    (∀ content xs, jsonParse content = Except.ok (Json.arr xs) →
      extractAreas content = xs) ∧
    (∀ content j, jsonParse content = Except.ok j → jsonIsArr j = false →
      extractAreas content = []) ∧
    (∀ content err, jsonParse content = Except.error err →
      pyFind content.toList '[' = none → extractAreas content = []) ∧
    (∀ (pre mid post : List Char) (err : String) (xs : List Json),
      jsonParse (String.mk (pre ++ '[' :: (mid ++ ']' :: post))) =
        Except.error err →
      '[' ∉ pre → ']' ∉ mid →
      jsonParse (String.mk ('[' :: (mid ++ [']']))) = Except.ok (Json.arr xs) →
      extractAreas (String.mk (pre ++ '[' :: (mid ++ ']' :: post))) = xs) ∧
    extractAreas ("Here you go:\n[\"A\", \"B\"]\nHope that helps!") =
      [Json.str ("A"), Json.str ("B")] ∧
    extractAreas ("I cannot help with that.") = [] := by
  refine ⟨?_, ?_, ?_, ?_, rfl, rfl⟩
  · intro content xs h
    simp [extractAreas, h]
  · intro content j h hj
    cases j <;> simp_all [extractAreas, jsonIsArr]
  · intro content err h hfind
    have hf2 : pyFind content.data '[' = none := hfind
    simp [extractAreas, h, hf2]
  · intro pre mid post err xs hwhole hpre hmid hslice
    have hlist : (String.mk (pre ++ '[' :: (mid ++ ']' :: post))).toList =
        pre ++ '[' :: (mid ++ ']' :: post) := rfl
    have hfind1 : pyFind (pre ++ '[' :: (mid ++ ']' :: post)) '[' =
        some pre.length := pyFind_append_first pre _ '[' hpre
    have hdrop : (pre ++ '[' :: (mid ++ ']' :: post)).drop pre.length =
        '[' :: (mid ++ ']' :: post) := List.drop_left pre _
    have hmid2 : ']' ∉ ('[' :: mid) := by
      intro hm
      rcases List.mem_cons.mp hm with h1 | h2
      · exact absurd h1 (by decide)
      · exact hmid h2
    have hfind2 : pyFind ('[' :: (mid ++ ']' :: post)) ']' =
        some (mid.length + 1) := by
      have := pyFind_append_first ('[' :: mid) post ']' hmid2
      simpa using this
    have hfrom : pyFindFrom (pre ++ '[' :: (mid ++ ']' :: post)) ']' pre.length =
        some (mid.length + 1 + pre.length) := by
      simp [pyFindFrom, hdrop, hfind2]
    have htake : ('[' :: (mid ++ ']' :: post)).take
        (mid.length + 1 + pre.length + 1 - pre.length) = '[' :: (mid ++ [']']) := by
      have h1 : mid.length + 1 + pre.length + 1 - pre.length = mid.length + 2 := by
        omega
      rw [h1]
      have h2 : ('[' :: (mid ++ ']' :: post)).take (mid.length + 2) =
          '[' :: ((mid ++ ']' :: post).take (mid.length + 1)) := rfl
      rw [h2]
      have h3 : (mid ++ ']' :: post).take (mid.length + 1) = mid ++ [']'] := by
        have := take_length_add mid (']' :: post) 1
        simpa using this
      rw [h3]
    simp only [extractAreas, hwhole, hlist, hfind1, hfrom, hdrop, htake]
    have hgt : mid.length + 1 + pre.length > pre.length := by omega
    simp only [if_pos hgt]
    simp [hslice]

/-- C5 witness: a content that is itself a JSON array is returned as the
areas list. -/
theorem C5_witness :
    jsonParse ("[\"A\"]") = Except.ok (Json.arr [Json.str ("A")]) ∧
    extractAreas ("[\"A\"]") = [Json.str ("A")] :=
  ⟨rfl, (C5_extractor_amended).1 ("[\"A\"]") [Json.str ("A")] rfl⟩

/-- C6: the code returns a mistyped safety object verbatim. When the
upstream content parses to a dict containing the key safe with a non-boolean
value, check_area answers 200 with that object rather than the negative
default the claim prescribes: the source checks only isinstance(result, dict)
and membership of the key safe, never the type of its value. -/
theorem C6_wrong_type_passthrough :
    extractSafety ("\x7b\"safe\": \"yes\"\x7d") =
      Json.obj [("safe", Json.str ("yes"))] ∧
    Json.obj [("safe", Json.str ("yes"))] ≠ safetyDefault ∧
    (check_area (some ("k")) ("m")
      (Request.mk (some ("t")) (some ("t")) (Json.obj [("area", Json.str ("law"))]))
      (Except.ok (Json.obj [("choices", Json.arr [Json.obj [("message",
        Json.obj [("content", Json.str ("\x7b\"safe\": \"yes\"\x7d"))])]])]))).resp =
      HResp.ok 200 (Json.obj [("safe", Json.str ("yes"))]) :=
  ⟨rfl, by simp [safetyDefault], rfl⟩

/-- C8: a chat request that passes the CSRF and API-key gates sends upstream
exactly the caller's message list verbatim, the caller's max_tokens or 800
when omitted, and the caller's temperature or 0.2 when omitted, and relays
the upstream completion JSON back unchanged (500 with the exception text on
an upstream failure). -/
theorem C8_chat_relay (apiKey : Option String) (model : String) (req : Request)
    (upstream : Except String Json) (fields : List (String × Json))
    (hv : verify_csrf req.cookieToken req.headerToken = true)
    (hk : pyTruthy apiKey = true)
    (hb : req.body = Json.obj fields) :
    chat apiKey model req upstream =
      { resp :=
          match upstream with
          | Except.ok j => HResp.ok 200 j
          | Except.error e => HResp.ok 500 (Json.obj [("error", Json.str e)]),
        called := true,
        sent := some (Json.obj [("model", Json.str model),
          ("messages", (jLookup fields ("messages")).getD Json.null),
          ("max_tokens", (jLookup fields ("max_tokens")).getD (Json.num 800)),
          ("temperature", (jLookup fields ("temperature")).getD
            (Json.num (0.2 : Rat)))]) } := by
  cases upstream <;> simp [chat, hv, hk, hb, pyGetD_obj]

/-- C8 witness: a concrete chat request with messages supplied and the other
parameters omitted gets the 800 and 0.2 defaults and the raw upstream body
back. -/
theorem C8_witness :
    chat (some ("k")) ("m")
      (Request.mk (some ("t")) (some ("t"))
        (Json.obj [("messages", Json.arr [Json.str ("hi")])]))
      (Except.ok (Json.str ("raw"))) =
      { resp := HResp.ok 200 (Json.str ("raw")), called := true,
        sent := some (Json.obj [("model", Json.str ("m")),
          ("messages", Json.arr [Json.str ("hi")]),
          ("max_tokens", Json.num 800),
          ("temperature", Json.num (0.2 : Rat))]) } :=
  C8_chat_relay (some "k") "m"
    (Request.mk (some "t") (some "t")
      (Json.obj [("messages", Json.arr [Json.str "hi"])]))
    (Except.ok (Json.str "raw")) [("messages", Json.arr [Json.str "hi"])]
    rfl rfl rfl

/-- C9: ensure_csrf_cookie leaves status and body unchanged and appends one
cookie with exactly max-age 604800 seconds, SameSite Lax, HttpOnly false and
Secure equal to the configuration flag; when called without an explicit token
it reuses a present nonempty inbound cookie token (never rotating it) and
mints the fresh token only when none is present. -/
theorem C9_ensure_csrf_cookie_spec (cfg : Bool) (fresh : String)
    (reqCookie : Option String) (tokenArg : Option String) (resp : HttpResp) :
    ((ensure_csrf_cookie cfg fresh reqCookie tokenArg resp).status = resp.status) ∧
    ((ensure_csrf_cookie cfg fresh reqCookie tokenArg resp).body = resp.body) ∧
    (∃ ck : SetCookie,
      (ensure_csrf_cookie cfg fresh reqCookie tokenArg resp).cookies =
        resp.cookies ++ [ck] ∧
      ck.name = CSRF_COOKIE_NAME ∧ ck.maxAge = 604800 ∧ ck.sameSite = "Lax" ∧
      ck.httpOnly = false ∧ ck.secure = cfg) ∧
    (∀ c, tokenArg = none → reqCookie = some c → c ≠ "" →
      (ensure_csrf_cookie cfg fresh reqCookie tokenArg resp).cookies =
        resp.cookies ++ [{ name := CSRF_COOKIE_NAME, value := c,
                           maxAge := 604800, sameSite := "Lax", secure := cfg,
                           httpOnly := false }]) ∧
    (tokenArg = none → (reqCookie = none ∨ reqCookie = some "") →
      (ensure_csrf_cookie cfg fresh reqCookie tokenArg resp).cookies =
        resp.cookies ++ [{ name := CSRF_COOKIE_NAME, value := fresh,
                           maxAge := 604800, sameSite := "Lax", secure := cfg,
                           httpOnly := false }]) := by
  refine ⟨rfl, rfl, ⟨_, rfl, rfl, rfl, rfl, rfl, rfl⟩, ?_, ?_⟩
  · rintro c rfl rfl hc
    simp [ensure_csrf_cookie, pyTruthy, hc]
  · rintro rfl (rfl | rfl) <;> simp [ensure_csrf_cookie, pyTruthy]

/-- C9 witness: with an inbound cookie token present, the very same value is
set again with the fixed attributes, on an otherwise unchanged response. -/
theorem C9_witness :
    (ensure_csrf_cookie false ("new") (some ("old")) none
      (HttpResp.mk 200 Json.null [])).cookies =
      [{ name := CSRF_COOKIE_NAME, value := ("old"), maxAge := 604800,
           sameSite := "Lax", secure := false, httpOnly := false }] ∧
    (ensure_csrf_cookie false ("new") (some ("old")) none
      (HttpResp.mk 200 Json.null [])).status = 200 := by
  constructor
  · exact (C9_ensure_csrf_cookie_spec false "new" (some "old") none
      (HttpResp.mk 200 Json.null [])).2.2.2.1 "old" rfl rfl (by decide)
  · exact (C9_ensure_csrf_cookie_spec false "new" (some "old") none
      (HttpResp.mk 200 Json.null [])).1

/-- C10: a well-formed JSON object body that passes the CSRF and API-key
gates but whose coach (respectively area) field is present with a non-string
value makes the handler raise an uncaught AttributeError from the strip
call, instead of returning the benign default or any JSON error body. -/
theorem C10_nonstring_field_unhandled :
    verify_csrf (some ("t")) (some ("t")) = true ∧
    (get_areas (some ("k")) ("m")
      (Request.mk (some ("t")) (some ("t")) (Json.obj [("coach", Json.num 5)]))
      (Except.ok Json.null)).resp = HResp.exc ("AttributeError") ∧
    (check_area (some ("k")) ("m")
      (Request.mk (some ("t")) (some ("t")) (Json.obj [("area", Json.bool true)]))
      (Except.ok Json.null)).resp = HResp.exc ("AttributeError") :=
  ⟨rfl, rfl, rfl⟩
